import Mathlib

/-!
Shallow embedding of the shared-context URI load serialization subsystem of
the wry repository (file `src/webview/web_context.rs`, unix module), together
with the protocol registry and automation flag of `WebContextImpl`.

The embedding follows the source code: the `WebviewUriLoader` struct (an
atomic boolean single-flight lock plus a mutex-guarded `VecDeque` of
`(WebView, Url)` pairs) becomes a state record manipulated by the functions
`is_locked`, `unlock`, `push`, `pop` and `flush`, translated line by line.
Engine callbacks (`connect_load_changed` handlers) are modelled as a list of
connected observers; the engine's `load-changed::finished` signal emission
runs every handler connected on the emitting webview, in connection order,
exactly as GTK signal emission does (handlers connected during an emission do
not run in that emission).  Ghost fields (`dispatched`, `pending`, the
`fires` counter of an observer) instrument the model: they record the
dispatch trace, the multiset of dispatched-but-unfinished navigations, and
how often each connected handler has run; no source behaviour reads them.
-/

deriving instance DecidableEq for Except

namespace Wry

/-- Webview handles are opaque; only identity matters, so model them as `Nat`. -/
abbrev Handle := Nat

/-- Target URIs; only equality matters to the serializer. -/
abbrev Uri := String

/-- A handler connected with `connect_load_changed` on a webview.  The source
closure captures the loader and reacts to `LoadEvent::Finished` by unlocking
and re-flushing; `fires` is ghost instrumentation counting how often this
handler has run. -/
structure Observer where
  handle : Handle
  fires : Nat
deriving Repr, DecidableEq

/-- State of `WebviewUriLoader` (source lines 327-331): the `AtomicBool` lock
and the `VecDeque` queue, plus the connected load-changed handlers and ghost
instrumentation (`dispatched` = trace of `load_uri` calls in order,
`pending` = handles of dispatched navigations whose terminal event has not
yet fired). -/
structure WebviewUriLoader where
  lock : Bool
  queue : List (Handle × Uri)
  observers : List Observer
  dispatched : List (Handle × Uri)
  pending : List Handle
deriving Repr, DecidableEq

namespace WebviewUriLoader

/-- `Default::default()` for the loader: lock free, queue empty. -/
def init : WebviewUriLoader :=
  { lock := false, queue := [], observers := [], dispatched := [], pending := [] }

/-- Source `is_locked`: `self.lock.swap(true, SeqCst)` — returns the previous
value and unconditionally sets the lock. -/
def is_locked (s : WebviewUriLoader) : Bool × WebviewUriLoader :=
  (s.lock, { s with lock := true })

/-- Source `unlock`: `self.lock.store(false, SeqCst)`. -/
def unlock (s : WebviewUriLoader) : WebviewUriLoader :=
  { s with lock := false }

/-- Source `push`: lock the queue mutex and `push_back`. -/
def push (s : WebviewUriLoader) (h : Handle) (u : Uri) : WebviewUriLoader :=
  { s with queue := s.queue ++ [(h, u)] }

/-- Source `pop`: lock the queue mutex and `pop_front`. -/
def pop (s : WebviewUriLoader) : Option (Handle × Uri) × WebviewUriLoader :=
  match s.queue with
  | [] => (none, s)
  | r :: rest => (some r, { s with queue := rest })

/-- Source `webview.connect_load_changed(closure)`: connects one more handler
on `h`; the connection is never removed. -/
def connect_load_changed (s : WebviewUriLoader) (h : Handle) : WebviewUriLoader :=
  { s with observers := s.observers ++ [⟨h, 0⟩] }

/-- Source `webview.load_uri(url)`: the navigation becomes in flight.  Ghost
effect only: record the dispatch and mark the handle pending. -/
def load_uri (s : WebviewUriLoader) (h : Handle) (u : Uri) : WebviewUriLoader :=
  { s with dispatched := s.dispatched ++ [(h, u)], pending := s.pending ++ [h] }

/-- Source `flush` (lines 357-371): claim the lock with `is_locked`; if it was
already held, return.  Otherwise `pop`; on `Some`, connect a load-changed
handler and `load_uri`.  On `None` the source returns with the lock still
set — there is no release on the empty-queue path. -/
def flush (s : WebviewUriLoader) : WebviewUriLoader :=
  match is_locked s with
  | (true, s1) => s1
  | (false, s1) =>
    match pop s1 with
    | (none, s2) => s2
    | (some (h, u), s2) => load_uri (connect_load_changed s2 h) h u

/-- Increment the ghost fire counter of the handler at position `i`. -/
def bump : List Observer → Nat → List Observer
  | [], _ => []
  | o :: rest, 0 => ⟨o.handle, o.fires + 1⟩ :: rest
  | o :: rest, n + 1 => o :: bump rest n

/-- Run the handlers of a `load-changed::finished` emission on handle `h`.
`snap` is the list of handlers connected when the emission starts (handlers
connected during the emission do not run in it); `i` is the position of the
current handler in the loader's observer list, which only grows, so positions
stay valid.  A handler whose webview is the emitter runs the source closure
body for `LoadEvent::Finished`: `self.unlock(); Rc::clone(&self).flush()`. -/
def fireObs (h : Handle) : List Observer → Nat → WebviewUriLoader → WebviewUriLoader
  | [], _, s => s
  | o :: rest, i, s =>
    fireObs h rest (i + 1)
      (if o.handle = h then flush (unlock { s with observers := bump s.observers i }) else s)

/-- The engine emits the terminal `load-changed::finished` event on handle
`h`: the in-flight navigation of `h` (if any) is no longer pending, then every
handler connected on `h` at emission start runs in connection order.
Non-`Finished` load events leave the state unchanged (the closure ignores
them), so they are not modelled. -/
def finished (s : WebviewUriLoader) (h : Handle) : WebviewUriLoader :=
  let s0 := { s with pending := s.pending.erase h }
  fireObs h s0.observers 0 s0

end WebviewUriLoader

/-- External stimuli of the serializer: `queue_load_uri` (a `push`), an
explicit `flush_queue_loader`, and the engine's terminal load event on a
handle. -/
inductive Event where
  | push (h : Handle) (u : Uri)
  | flush
  | finished (h : Handle)
deriving Repr, DecidableEq

/-- Apply one stimulus to the loader. -/
def step (s : WebviewUriLoader) : Event → WebviewUriLoader
  | .push h u => s.push h u
  | .flush => s.flush
  | .finished h => s.finished h

/-- Run a sequence of stimuli from a starting state. -/
def run (es : List Event) (s : WebviewUriLoader) : WebviewUriLoader :=
  es.foldl step s

/-- The requests enqueued by a stimulus sequence, in order. -/
def pushedOf : List Event → List (Handle × Uri)
  | [] => []
  | .push h u :: es => (h, u) :: pushedOf es
  | .flush :: es => pushedOf es
  | .finished _ :: es => pushedOf es

/-!
Shared context and protocol registry (`WebContextImpl`, `WebContextExt` in
the source).  The errors are the variants of `src/error.rs` that this module
produces; the other variants of the enum are irrelevant here.
-/

/-- The error variants of `src/error.rs` produced by `register_uri_scheme`:
`MissingManager` ("Fail to fetch security manager") and
`DuplicateCustomProtocol` ("Duplicate custom protocol registered"). -/
inductive Error where
  | missingManager
  | duplicateCustomProtocol (name : String)
deriving Repr, DecidableEq

/-- The state of the engine-side `webkit2gtk::WebContext` as this module
touches it.  Whether `get_security_manager()` returns `Some` is decided by
the external engine, so it is a fixed attribute here; `secureSchemes` records
`register_uri_scheme_as_secure` calls and `schemeHandlers` the schemes for
which `context.register_uri_scheme(name, closure)` installed a handler. -/
structure EngineContext where
  automationAllowed : Bool
  hasSecurityManager : Bool
  localStorageDirectory : Option String
  indexedDbDirectory : Option String
  secureSchemes : List String
  schemeHandlers : List String
deriving Repr, DecidableEq

/-- `WebContextData` (source lines 51-54): the optional data directory. -/
structure WebContextData where
  dataDirectory : Option String
deriving Repr, DecidableEq

/-- `unix::WebContextImpl` (source lines 124-131): the engine context, the
registered-protocol set, and the automation flag.  The `UserContentManager`
and the loader are modelled separately. -/
structure WebContextImpl where
  context : EngineContext
  registeredProtocols : List String
  automation : Bool
deriving Repr, DecidableEq

/-- `WebContextImpl::new` (source lines 134-193): build the engine context
(configuring `localstorage` and `databases/indexeddb` subdirectories when a
data directory is given), set `automation = false`, and call
`context.set_automation_allowed(false)`; the protocol set starts empty.
Whether the engine exposes a security manager is an engine-side fact passed
in as `engineHasManager`. -/
def WebContextImpl.new (data : WebContextData) (engineHasManager : Bool) : WebContextImpl :=
  { context :=
      { automationAllowed := false
        hasSecurityManager := engineHasManager
        localStorageDirectory := data.dataDirectory.map (fun d => d ++ "/localstorage")
        indexedDbDirectory := data.dataDirectory.map (fun d => d ++ "/databases/indexeddb")
        secureSchemes := []
        schemeHandlers := [] }
    registeredProtocols := []
    automation := false }

/-- `WebContextImpl::set_allows_automation` (source lines 195-198): store the
flag and forward it to `context.set_automation_allowed`. -/
def set_allows_automation (c : WebContextImpl) (flag : Bool) : WebContextImpl :=
  { c with automation := flag, context := { c.context with automationAllowed := flag } }

/-- `WebContextExt::allows_automation` (source lines 322-324). -/
def allows_automation (c : WebContextImpl) : Bool :=
  c.automation

/-- `WebContextExt::register_uri_scheme` (source lines 263-312): insert the
name into `registered_protocols` (`HashSet::insert` returns `false` and
leaves the set unchanged when the name is already present); on a duplicate
return `DuplicateCustomProtocol`.  Otherwise fetch the security manager — if
it is absent, return `MissingManager` (the name stays inserted) — then mark
the scheme secure, install the request handler, and return `Ok`. -/
def register_uri_scheme (c : WebContextImpl) (name : String) :
    Except Error Unit × WebContextImpl :=
  if name ∈ c.registeredProtocols then
    (Except.error (Error.duplicateCustomProtocol name), c)
  else
    let c1 := { c with registeredProtocols := c.registeredProtocols ++ [name] }
    if c1.context.hasSecurityManager then
      (Except.ok (),
        { c1 with context :=
            { c1.context with
                secureSchemes := c1.context.secureSchemes ++ [name]
                schemeHandlers := c1.context.schemeHandlers ++ [name] } })
    else
      (Except.error Error.missingManager, c1)

/-- Fold a sequence of registrations, keeping only the resulting state. -/
def registerAll (c : WebContextImpl) (names : List String) : WebContextImpl :=
  names.foldl (fun c' n => (register_uri_scheme c' n).2) c

/-!
The custom-protocol request callback installed by `register_uri_scheme`
(source lines 289-309).  The closure receives a `URISchemeRequest`; its URI
may be absent (`request.get_uri()` is an `Option`), and the user handler
returns either `(Vec<u8>, String)` or a `crate::Error`, modelled by its
textual message.
-/

/-- The glib file-error codes used by the callback. -/
inductive FileError where
  | exist
deriving Repr, DecidableEq

/-- A `glib::Error` value: a code and a textual message. -/
structure GlibError where
  code : FileError
  message : String
deriving Repr, DecidableEq

/-- What the callback does to the `URISchemeRequest`: `finish` with an input
stream of bytes, a stream length (`buffer.len() as i64`), and an optional
MIME type, or `finish_error` with a `glib::Error`. -/
inductive SchemeResponse where
  | finish (stream : List Nat) (streamLength : Int) (mime : Option String)
  | finishError (err : GlibError)
deriving Repr, DecidableEq

/-- The callback body (source lines 289-309): with a URI, run the user
handler; on `Ok((buffer, mime))` finish the request with the buffer, its
length, and the MIME type; on `Err(_)` finish with the fixed
`glib::Error::new(FileError::Exist, "Could not get requested file.")` —
the handler's error value is discarded.  Without a URI, finish with
`"Could not get uri."`. -/
def handleSchemeRequest (handler : String → Except String (List Nat × String))
    (uri : Option String) : SchemeResponse :=
  match uri with
  | some u =>
    match handler u with
    | .ok (buffer, mime) => .finish buffer (buffer.length : Int) (some mime)
    | .error _ => .finishError ⟨FileError.exist, "Could not get requested file."⟩
  | none => .finishError ⟨FileError.exist, "Could not get uri."⟩

/-- Modelled from the spec: §4.1 and §8 claim a handler error is "translated
into an HTTP 500 response with the error text as a plain-text body".  This
definition follows those words; it exists to be compared with the source's
`handleSchemeRequest`, which calls `finish_error` instead. -/
structure HttpResponse where
  status : Nat
  contentType : String
  body : String
deriving Repr, DecidableEq

/-- Modelled from the spec: the response §4.1/§8 say a failing handler
produces — status 500, `Content-Type: text/plain`, body equal to the handler
error's textual message. -/
def specClaimedErrorResponse (errText : String) : HttpResponse :=
  { status := 500, contentType := "text/plain", body := errText }

/-- Sum of the ghost fire counters of a list of connected handlers. -/
def firesSum : List Observer → Nat
  | [] => 0
  | o :: rest => o.fires + firesSum rest

/-- Number of handlers in a list connected on handle `h`. -/
def countHandle (h : Handle) : List Observer → Nat
  | [] => 0
  | o :: rest => (if o.handle = h then 1 else 0) + countHandle h rest

namespace WebviewUriLoader

theorem firesSum_append (l1 l2 : List Observer) :
    firesSum (l1 ++ l2) = firesSum l1 + firesSum l2 := by
  induction l1 with
  | nil => simp [firesSum]
  | cons o rest ih => simp [firesSum, ih]; omega

theorem bump_length (l : List Observer) (i : Nat) : (bump l i).length = l.length := by
  induction l generalizing i with
  | nil => rfl
  | cons o rest ih =>
    cases i with
    | zero => rfl
    | succ n => simp [bump, ih]

theorem firesSum_bump (l : List Observer) (i : Nat) (hi : i < l.length) :
    firesSum (bump l i) = firesSum l + 1 := by
  induction l generalizing i with
  | nil => simp at hi
  | cons o rest ih =>
    cases i with
    | zero => simp [bump, firesSum]; omega
    | succ n =>
      have hn : n < rest.length := by simpa using hi
      simp [bump, firesSum, ih n hn]; omega

/-- A `flush` never changes the concatenation of dispatch trace and queue: it
either does nothing or moves the queue head to the end of the trace. -/
theorem flush_dispatched_queue (s : WebviewUriLoader) :
    (flush s).dispatched ++ (flush s).queue = s.dispatched ++ s.queue := by
  rcases s with ⟨lk, q, obs, d, p⟩
  cases lk with
  | true => rfl
  | false =>
    cases q with
    | nil => rfl
    | cons r rest =>
      rcases r with ⟨h, u⟩
      simp [flush, is_locked, pop, connect_load_changed, load_uri]

/-- A `flush` adds no fires: it at most connects a fresh handler with a zero
counter. -/
theorem flush_firesSum (s : WebviewUriLoader) :
    firesSum (flush s).observers = firesSum s.observers := by
  rcases s with ⟨lk, q, obs, d, p⟩
  cases lk with
  | true => rfl
  | false =>
    cases q with
    | nil => rfl
    | cons r rest =>
      rcases r with ⟨h, u⟩
      simp [flush, is_locked, pop, connect_load_changed, load_uri,
        firesSum_append, firesSum]

/-- A `flush` never disconnects handlers: the observer list only grows. -/
theorem flush_observers_length (s : WebviewUriLoader) :
    s.observers.length ≤ (flush s).observers.length := by
  rcases s with ⟨lk, q, obs, d, p⟩
  cases lk with
  | true => exact Nat.le_refl _
  | false =>
    cases q with
    | nil => exact Nat.le_refl _
    | cons r rest =>
      rcases r with ⟨h, u⟩
      simp [flush, is_locked, pop, connect_load_changed, load_uri]

theorem fireObs_dispatched_queue (h : Handle) (snap : List Observer) :
    ∀ (i : Nat) (s : WebviewUriLoader),
      (fireObs h snap i s).dispatched ++ (fireObs h snap i s).queue =
        s.dispatched ++ s.queue := by
  induction snap with
  | nil => intro i s; rfl
  | cons o rest ih =>
    intro i s
    by_cases hd : o.handle = h
    · simp only [fireObs, if_pos hd]
      rw [ih]
      exact flush_dispatched_queue _
    · simp only [fireObs, if_neg hd]
      exact ih _ _

/-- One emission on handle `h` runs each handler connected on `h` at emission
start exactly once: the fire counters grow by the number of such handlers. -/
theorem fireObs_firesSum (h : Handle) (snap : List Observer) :
    ∀ (i : Nat) (s : WebviewUriLoader), i + snap.length ≤ s.observers.length →
      firesSum (fireObs h snap i s).observers =
        firesSum s.observers + countHandle h snap := by
  induction snap with
  | nil => intro i s _; simp [fireObs, countHandle]
  | cons o rest ih =>
    intro i s hlen
    by_cases hd : o.handle = h
    · simp only [fireObs, if_pos hd]
      have hi : i < s.observers.length := by simp at hlen; omega
      have hstep : firesSum (flush (unlock { s with observers := bump s.observers i })).observers
          = firesSum s.observers + 1 := by
        rw [flush_firesSum]
        exact firesSum_bump _ _ hi
      have hlen2 : (i + 1) + rest.length ≤
          (flush (unlock { s with observers := bump s.observers i })).observers.length := by
        have h1 := flush_observers_length (unlock { s with observers := bump s.observers i })
        have h2 : (unlock { s with observers := bump s.observers i }).observers.length
            = s.observers.length := by simp [unlock, bump_length]
        simp at hlen
        omega
      rw [ih _ _ hlen2, hstep]
      simp [countHandle, if_pos hd]
      omega
    · simp only [fireObs, if_neg hd]
      have hlen2 : (i + 1) + rest.length ≤ s.observers.length := by simp at hlen; omega
      rw [ih _ _ hlen2]
      simp [countHandle, if_neg hd]

theorem finished_dispatched_queue (s : WebviewUriLoader) (h : Handle) :
    (finished s h).dispatched ++ (finished s h).queue = s.dispatched ++ s.queue := by
  unfold finished
  rw [fireObs_dispatched_queue]

theorem finished_firesSum (s : WebviewUriLoader) (h : Handle) :
    firesSum (finished s h).observers =
      firesSum s.observers + countHandle h s.observers := by
  unfold finished
  exact fireObs_firesSum h _ 0 _ (by simp)

end WebviewUriLoader

theorem step_dispatched_queue (s : WebviewUriLoader) (e : Event) :
    (step s e).dispatched ++ (step s e).queue =
      s.dispatched ++ s.queue ++ pushedOf [e] := by
  cases e with
  | push h u => simp [step, WebviewUriLoader.push, pushedOf]
  | flush => simp [step, WebviewUriLoader.flush_dispatched_queue, pushedOf]
  | finished h => simp [step, WebviewUriLoader.finished_dispatched_queue, pushedOf]

theorem run_dispatched_queue (es : List Event) :
    ∀ (s : WebviewUriLoader),
      (run es s).dispatched ++ (run es s).queue =
        s.dispatched ++ s.queue ++ pushedOf es := by
  induction es with
  | nil => intro s; simp [run, pushedOf]
  | cons e rest ih =>
    intro s
    have h1 : run (e :: rest) s = run rest (step s e) := rfl
    rw [h1, ih (step s e), step_dispatched_queue]
    cases e <;> simp [pushedOf]

/-!
Claim theorems.
-/

/-- Stimulus trace for claim C1: webview 0 queued for two loads, webviews 1
and 2 queued behind it, each enqueue followed by a flush, then webview 0's
two terminal load events. -/
def c1trace : List Event :=
  [.push 0 "a", .flush, .push 0 "b", .flush, .push 1 "c", .flush, .push 2 "d", .flush,
   .finished 0, .finished 0]

/-- Claim C1 (code-bug evidence): the single-flight invariant fails on the
code.  In `c1trace`, webview 0's first dispatch connects a load-changed
handler; its first terminal event runs it, and the recursive flush dispatches
webview 0's second load, connecting a second handler.  Webview 0's second
terminal event then runs BOTH handlers: the first dispatches webview 1, the
second releases the lock guarding webview 1's in-flight navigation and
dispatches webview 2 too.  Both terminal events arrive while webview 0 is the
sole pending navigation, yet afterwards handles 1 and 2 are dispatched and
unfinished simultaneously — the spec's active counter reaches 2. -/
theorem c1_single_flight_violated :
    (run (c1trace.take 8) WebviewUriLoader.init).pending = [0] ∧
    (run (c1trace.take 9) WebviewUriLoader.init).pending = [0] ∧
    (run c1trace WebviewUriLoader.init).pending = [1, 2] ∧
    (run c1trace WebviewUriLoader.init).pending.length = 2 := by decide

/-- Claim C2: FIFO dispatch order.  For every stimulus sequence — pushes,
flushes and terminal load events in any interleaving — the dispatch trace
followed by the remaining queue equals the enqueue sequence in order: `push`
appends to the tail, dispatch consumes exactly the head, so requests dispatch
in strict enqueue order with no reordering, however completions interleave. -/
theorem c2_fifo_dispatch (es : List Event) :
    (run es WebviewUriLoader.init).dispatched ++ (run es WebviewUriLoader.init).queue
      = pushedOf es := by
  have h := run_dispatched_queue es WebviewUriLoader.init
  simpa [WebviewUriLoader.init] using h

/-- The loader after one flush of the fresh (idle, empty) state. -/
def c3after : WebviewUriLoader := WebviewUriLoader.flush WebviewUriLoader.init

/-- Claim C3 (code-bug evidence): flushing an idle loader with an empty queue
claims the lock and never releases it — the empty-pop path of `flush` has no
unlock — so the loader is left locked having dispatched nothing, and a later
enqueue-plus-flush dispatches nothing either. -/
theorem c3_empty_flush_keeps_lock :
    WebviewUriLoader.init.lock = false ∧
    c3after.lock = true ∧
    c3after.dispatched = [] ∧
    c3after.queue = [] ∧
    (run [.push 0 "a", .flush] c3after).dispatched = [] ∧
    (run [.push 0 "a", .flush] c3after).queue = [(0, "a")] := by decide

/-- Stimulus trace for claim C4: two webviews enqueued and flushed, then
their terminal load events in order. -/
def c4trace : List Event :=
  [.push 0 "a", .flush, .push 1 "b", .flush, .finished 0, .finished 1]

/-- Claim C4 (code-bug evidence): on a terminal load event the handler does
release the lock and recursively flush, so the second queued request
dispatches with no external flush call (first conjunct, after event 5 the
trace already contains both dispatches); but after the last completion the
recursive flush re-claims the lock and, finding the queue empty, never
releases it, so the loader ends locked (Active) with an empty queue rather
than Idle. -/
theorem c4_drain_on_completion_final_state :
    (run (c4trace.take 5) WebviewUriLoader.init).dispatched = [(0, "a"), (1, "b")] ∧
    (run c4trace WebviewUriLoader.init).dispatched = [(0, "a"), (1, "b")] ∧
    (run c4trace WebviewUriLoader.init).queue = [] ∧
    (run c4trace WebviewUriLoader.init).pending = [] ∧
    (run c4trace WebviewUriLoader.init).lock = true := by decide

/-- Stimulus trace for claim C5: webview 0 queued for two loads, then its two
terminal load events. -/
def c5trace : List Event :=
  [.push 0 "a", .flush, .push 0 "b", .flush, .finished 0, .finished 0]

/-- Claim C5 counterexample: the completion observer is not one-shot.  In
`c5trace`, webview 0's first dispatch connects a handler; the first terminal
event runs it (one fire) and the recursive flush dispatches the second load,
connecting a second handler; the second terminal event runs BOTH handlers, so
the first handler ends with two fires — it fired again on the same handle's
later load event, contradicting "fires at most once". -/
theorem c5_observer_fires_twice :
    (run c5trace WebviewUriLoader.init).observers = [⟨0, 2⟩, ⟨0, 1⟩] ∧
    ¬ (∀ o ∈ (run c5trace WebviewUriLoader.init).observers, o.fires ≤ 1) := by decide

/-- Claim C5 amended: the completion observer registered at dispatch is a
persistent load-changed handler — it is never disconnected, and every
terminal load event on a handle runs each handler connected on that handle
exactly once (each run performing one lock release and one recursive flush),
so an observer fires once per subsequent terminal event of its handle,
including on the handle's later load events. -/
theorem c5_observer_persistent (s : WebviewUriLoader) (h : Handle) :
    firesSum (s.finished h).observers = firesSum s.observers + countHandle h s.observers :=
  WebviewUriLoader.finished_firesSum s h

/-- Claim C6: duplicate protocol rejection.  On any context whose engine
exposes a security manager and where the scheme is not yet registered,
registration succeeds; registering the same scheme again on the resulting
context fails with `DuplicateCustomProtocol` and leaves the registered-scheme
set unchanged.  The quantification over `c` covers two distinct fresh
contexts: each accepts the same scheme, as the witness instantiates. -/
theorem c6_duplicate_protocol_rejection (c : WebContextImpl) (name : String)
    (hm : c.context.hasSecurityManager = true)
    (hf : name ∉ c.registeredProtocols) :
    (register_uri_scheme c name).1 = Except.ok () ∧
    (register_uri_scheme (register_uri_scheme c name).2 name).1
      = Except.error (Error.duplicateCustomProtocol name) ∧
    (register_uri_scheme (register_uri_scheme c name).2 name).2.registeredProtocols
      = (register_uri_scheme c name).2.registeredProtocols := by
  simp [register_uri_scheme, hf, hm]

/-- Witness for C6 at a concrete input: scheme "app" registered twice on one
fresh context, and once each on two separate fresh contexts. -/
theorem c6_duplicate_protocol_rejection_witness :
    (register_uri_scheme (WebContextImpl.new ⟨none⟩ true) "app").1 = Except.ok () ∧
    (register_uri_scheme
        (register_uri_scheme (WebContextImpl.new ⟨none⟩ true) "app").2 "app").1
      = Except.error (Error.duplicateCustomProtocol "app") ∧
    (register_uri_scheme (WebContextImpl.new ⟨some "profileB"⟩ true) "app").1
      = Except.ok () :=
  ⟨(c6_duplicate_protocol_rejection (WebContextImpl.new ⟨none⟩ true) "app" rfl
      (by decide)).1,
   (c6_duplicate_protocol_rejection (WebContextImpl.new ⟨none⟩ true) "app" rfl
      (by decide)).2.1,
   (c6_duplicate_protocol_rejection (WebContextImpl.new ⟨some "profileB"⟩ true) "app" rfl
      (by decide)).1⟩

/-- A fresh context whose engine exposes no security manager. -/
def noManagerContext : WebContextImpl := WebContextImpl.new ⟨none⟩ false

/-- Claim C7 counterexample: an error without a duplicate.  On a context
whose engine exposes no security manager, registering a scheme that is not
already registered returns `MissingManager` — an error even though the scheme
was fresh, and not `DuplicateCustomProtocol` — refuting the raises-iff. -/
theorem c7_missing_manager_cex :
    "app" ∉ noManagerContext.registeredProtocols ∧
    (register_uri_scheme noManagerContext "app").1 = Except.error Error.missingManager ∧
    (register_uri_scheme noManagerContext "app").1
      ≠ Except.error (Error.duplicateCustomProtocol "app") ∧
    (register_uri_scheme noManagerContext "app").1 ≠ Except.ok () := by decide

/-- Claim C7 amended: `register_uri_scheme` returns
`DuplicateCustomProtocol(scheme)` exactly when the scheme is already
registered on this context; on a fresh scheme it returns `MissingManager`
when the engine exposes no security manager, and otherwise installs the
handler, marks the scheme secure, and returns `Ok`. -/
theorem c7_registration_errors (c : WebContextImpl) (name : String) :
    ((register_uri_scheme c name).1 = Except.error (Error.duplicateCustomProtocol name)
        ↔ name ∈ c.registeredProtocols) ∧
    (name ∉ c.registeredProtocols → c.context.hasSecurityManager = false →
      (register_uri_scheme c name).1 = Except.error Error.missingManager) ∧
    (name ∉ c.registeredProtocols → c.context.hasSecurityManager = true →
      (register_uri_scheme c name).1 = Except.ok () ∧
      name ∈ (register_uri_scheme c name).2.context.secureSchemes ∧
      name ∈ (register_uri_scheme c name).2.context.schemeHandlers) := by
  by_cases hmem : name ∈ c.registeredProtocols
  · simp [register_uri_scheme, hmem]
  · cases hsm : c.context.hasSecurityManager
    · simp [register_uri_scheme, hmem, hsm]
    · simp [register_uri_scheme, hmem, hsm]

/-- Witness for C7 amended at concrete inputs: a fresh scheme on a context
without a security manager yields `MissingManager`; with one, `Ok`. -/
theorem c7_registration_errors_witness :
    (register_uri_scheme (WebContextImpl.new ⟨none⟩ false) "app").1
      = Except.error Error.missingManager ∧
    (register_uri_scheme (WebContextImpl.new ⟨none⟩ true) "app").1 = Except.ok () :=
  ⟨(c7_registration_errors (WebContextImpl.new ⟨none⟩ false) "app").2.1 (by decide) rfl,
   ((c7_registration_errors (WebContextImpl.new ⟨none⟩ true) "app").2.2 (by decide) rfl).1⟩

/-- A protocol handler that fails with textual message "boom". -/
def failingHandler : String → Except String (List Nat × String) :=
  fun _ => Except.error "boom"

/-- A protocol handler that succeeds with two bytes and a MIME type. -/
def okHandler : String → Except String (List Nat × String) :=
  fun _ => Except.ok ([104, 105], "text/html")

/-- Claim C8 counterexample: a handler error is not translated into an HTTP
500 whose body is the error text.  For URI `scheme://fail`, a handler failing
with message "boom" makes the callback call `finish_error` with the fixed
message "Could not get requested file."; the handler's message — which the
claim says becomes the plain-text body — is discarded, and the emitted
message differs from the body the spec-modelled 500 response would carry. -/
theorem c8_error_translation_cex :
    handleSchemeRequest failingHandler (some "scheme://fail")
      = SchemeResponse.finishError ⟨FileError.exist, "Could not get requested file."⟩ ∧
    "Could not get requested file." ≠ (specClaimedErrorResponse "boom").body := by decide

/-- Claim C8 amended: a handler success `(bytes, mime)` finishes the request
with exactly those bytes, their length, and that MIME type; a handler error
finishes the request with the fixed engine error `FileError::Exist`,
"Could not get requested file.", discarding the handler's error text; a
request whose URI is unavailable is finished with "Could not get uri.". -/
theorem c8_handler_response (handler : String → Except String (List Nat × String))
    (u : String) (buffer : List Nat) (mime : String) (e : String) :
    (handler u = Except.ok (buffer, mime) →
      handleSchemeRequest handler (some u)
        = SchemeResponse.finish buffer (buffer.length : Int) (some mime)) ∧
    (handler u = Except.error e →
      handleSchemeRequest handler (some u)
        = SchemeResponse.finishError ⟨FileError.exist, "Could not get requested file."⟩) ∧
    handleSchemeRequest handler none
      = SchemeResponse.finishError ⟨FileError.exist, "Could not get uri."⟩ := by
  refine ⟨fun h => ?_, fun h => ?_, rfl⟩
  · simp [handleSchemeRequest, h]
  · simp [handleSchemeRequest, h]

/-- Witness for C8 amended at concrete inputs: a succeeding and a failing
handler on concrete URIs. -/
theorem c8_handler_response_witness :
    handleSchemeRequest okHandler (some "app://index")
      = SchemeResponse.finish [104, 105] 2 (some "text/html") ∧
    handleSchemeRequest failingHandler (some "app://x")
      = SchemeResponse.finishError ⟨FileError.exist, "Could not get requested file."⟩ :=
  ⟨(c8_handler_response okHandler "app://index" [104, 105] "text/html" "e").1 rfl,
   (c8_handler_response failingHandler "app://x" [] "" "boom").2.1 rfl⟩

/-- The last element of a flag list, or a default when there is none. -/
def lastFlag (dflt : Bool) : List Bool → Bool
  | [] => dflt
  | f :: fs => lastFlag f fs

theorem foldl_set_allows_automation (flags : List Bool) :
    ∀ c : WebContextImpl,
      (flags.foldl set_allows_automation c).automation = lastFlag c.automation flags ∧
      (flags.foldl set_allows_automation c).context.automationAllowed
        = lastFlag c.context.automationAllowed flags := by
  induction flags with
  | nil => intro c; exact ⟨rfl, rfl⟩
  | cons f fs ih =>
    intro c
    have h := ih (set_allows_automation c f)
    simpa [List.foldl, lastFlag, set_allows_automation] using h

/-- Claim C9: a fresh context disallows automation — `new` stores `false` and
configures the engine with automation disabled — and after any sequence of
`set_allows_automation` calls, `allows_automation` (and the engine-side flag)
returns the last flag set, `false` if none was. -/
theorem c9_fresh_context_automation (data : WebContextData) (engineHasManager : Bool)
    (flags : List Bool) :
    allows_automation (WebContextImpl.new data engineHasManager) = false ∧
    (WebContextImpl.new data engineHasManager).context.automationAllowed = false ∧
    allows_automation (flags.foldl set_allows_automation
        (WebContextImpl.new data engineHasManager)) = lastFlag false flags ∧
    (flags.foldl set_allows_automation
        (WebContextImpl.new data engineHasManager)).context.automationAllowed
      = lastFlag false flags := by
  refine ⟨rfl, rfl, ?_, ?_⟩
  · exact (foldl_set_allows_automation flags _).1
  · exact (foldl_set_allows_automation flags _).2

theorem register_mem_mono (c : WebContextImpl) (n m : String)
    (h : m ∈ c.registeredProtocols) :
    m ∈ (register_uri_scheme c n).2.registeredProtocols := by
  by_cases hmem : n ∈ c.registeredProtocols
  · simpa [register_uri_scheme, hmem] using h
  · cases hsm : c.context.hasSecurityManager <;>
      simp [register_uri_scheme, hmem, hsm, List.mem_append, h]

theorem registerAll_mem_mono (names : List String) :
    ∀ (c : WebContextImpl) (m : String), m ∈ c.registeredProtocols →
      m ∈ (registerAll c names).registeredProtocols := by
  induction names with
  | nil => intro c m h; exact h
  | cons n rest ih =>
    intro c m h
    exact ih _ m (register_mem_mono c n m h)

theorem register_of_mem (c : WebContextImpl) (name : String)
    (h : name ∈ c.registeredProtocols) :
    register_uri_scheme c name = (Except.error (Error.duplicateCustomProtocol name), c) := by
  simp [register_uri_scheme, h]

/-- Claim C10: registration is not atomic on the `MissingManager` path.  On a
context with no security manager, a fresh scheme fails with `MissingManager`
yet stays recorded as registered; no handler is installed and nothing is
marked secure.  Every later attempt for that scheme — immediately or after
any further registrations — fails with `DuplicateCustomProtocol`, and such a
duplicate failure installs nothing either. -/
theorem c10_sticky_failed_registration (c : WebContextImpl) (name : String)
    (hm : c.context.hasSecurityManager = false)
    (hf : name ∉ c.registeredProtocols) :
    (register_uri_scheme c name).1 = Except.error Error.missingManager ∧
    name ∈ (register_uri_scheme c name).2.registeredProtocols ∧
    (register_uri_scheme c name).2.context.schemeHandlers = c.context.schemeHandlers ∧
    (register_uri_scheme c name).2.context.secureSchemes = c.context.secureSchemes ∧
    (∀ others : List String,
      (register_uri_scheme (registerAll (register_uri_scheme c name).2 others) name).1
        = Except.error (Error.duplicateCustomProtocol name)) ∧
    (register_uri_scheme (register_uri_scheme c name).2 name).2.context.schemeHandlers
      = c.context.schemeHandlers := by
  have h2 : name ∈ (register_uri_scheme c name).2.registeredProtocols := by
    simp [register_uri_scheme, hf, hm]
  refine ⟨by simp [register_uri_scheme, hf, hm], h2,
    by simp [register_uri_scheme, hf, hm], by simp [register_uri_scheme, hf, hm],
    ?_, ?_⟩
  · intro others
    have hmem := registerAll_mem_mono others _ name h2
    rw [register_of_mem _ _ hmem]
  · rw [register_of_mem _ _ h2]
    simp [register_uri_scheme, hf, hm]

/-- Witness for C10 at a concrete input: scheme "app" on a fresh context
whose engine lacks a security manager. -/
theorem c10_sticky_failed_registration_witness :
    (register_uri_scheme (WebContextImpl.new ⟨none⟩ false) "app").1
      = Except.error Error.missingManager ∧
    (register_uri_scheme
        (register_uri_scheme (WebContextImpl.new ⟨none⟩ false) "app").2 "app").1
      = Except.error (Error.duplicateCustomProtocol "app") := by
  have h := c10_sticky_failed_registration (WebContextImpl.new ⟨none⟩ false) "app" rfl
    (by decide)
  exact ⟨h.1, by simpa [registerAll] using h.2.2.2.2.1 []⟩

end Wry
